import Mathlib

/-!
# Verification of `weverse/objects/notification.py`

A shallow embedding of the `Notification` class: the payload schema, the
constructor, equality/hash, and the derived properties `url`, `post_id`
and `post_type`, together with theorems settling the specification claims.
-/

set_option maxRecDepth 4000

namespace Weverse

/-- Python errors that the embedded code can raise. -/
inductive PyError where
  | keyError (key : String)
  /-- The `AttributeError` raised by calling `.group(0)` on a `None` match object. -/
  | attributeError
  /-- The `NotImplementedError` raised by `__eq__` on a non-`Notification`. -/
  | notImplementedError
  deriving DecidableEq, Repr

/-- An opaque JSON-style sub-mapping, passed unchanged to the collaborator
constructors (`PartialCommunity`, `PartialMember`). Its contents are never
inspected by this module. -/
structure SubMapping where
  raw : List (String × String)
  deriving DecidableEq, Repr

/-- Modelled from the spec: `PartialCommunity` is a collaborator value object
(community reference, `weverse/objects/community.py`, not part of THE CORE)
that merely wraps the `community` sub-mapping handed to it. -/
structure PartialCommunity where
  data : SubMapping
  deriving DecidableEq, Repr

/-- Modelled from the spec: `PartialMember` is a collaborator value object
(member reference, `weverse/objects/member.py`, not part of THE CORE)
that merely wraps the author sub-mapping handed to it. -/
structure PartialMember where
  data : SubMapping
  deriving DecidableEq, Repr

/-- The `data["message"]["values"]` locale sub-mapping: each locale key is
optional (`.get(locale, "")` in the source). -/
structure LocaleValues where
  ko : Option String
  ja : Option String
  en : Option String
  deriving DecidableEq, Repr

/-- The `data["message"]` sub-mapping; its `values` key is looked up with
`data["message"]["values"]`, so absence is a `KeyError`. -/
structure MessageContainer where
  values : Option LocaleValues
  deriving DecidableEq, Repr

/-- The raw notification payload, with one field per schema key the source
ever reads. `some`/`none` model presence/absence of the key in the mapping. -/
structure Payload where
  activityId : Option Int
  title : Option String
  message : Option MessageContainer
  imageUrl : Option String
  logoImageUrl : Option String
  time : Option Int
  count : Option Int
  read : Option Bool
  community : Option SubMapping
  authors : Option (List SubMapping)
  webUrl : Option String
  messageId : Option String
  deriving DecidableEq, Repr

/-- A required-key lookup `data[key]`, raising `KeyError` when absent. -/
def getItem {α : Type} (key : String) (v : Option α) : Except PyError α :=
  match v with
  | some x => Except.ok x
  | none => Except.error (PyError.keyError key)

/-- The `Notification` object: the fields set by `__init__`, plus the raw
payload retained in `self.data`. -/
structure Notification where
  data : Payload
  id : Int
  title : String
  message_ko : String
  message_ja : String
  message_en : String
  image_url : Option String
  logo_image_url : String
  time_created : Int
  count : Int
  is_read : Bool
  community : PartialCommunity
  author : Option PartialMember
  deriving DecidableEq, Repr

/-- From `Notification.__init__(self, data)`: one-shot field extraction, in the
source's statement order. `data.get("authors")` is truthy exactly when the
key is present with a non-empty list. -/
def construct (data : Payload) : Except PyError Notification := do
  let activityId ← getItem "activityId" data.activityId
  let title ← getItem "title" data.title
  let message ← getItem "message" data.message
  let values ← getItem "values" message.values
  let message_ko := values.ko.getD ""
  let message_ja := values.ja.getD ""
  let message_en := values.en.getD ""
  let image_url := data.imageUrl
  let logo_image_url ← getItem "logoImageUrl" data.logoImageUrl
  let time_created ← getItem "time" data.time
  let count ← getItem "count" data.count
  let is_read ← getItem "read" data.read
  let communityData ← getItem "community" data.community
  let author : Option PartialMember :=
    match data.authors with
    | some (a :: _) => some (PartialMember.mk a)
    | _ => none
  Except.ok
    { data := data, id := activityId, title := title,
      message_ko := message_ko, message_ja := message_ja,
      message_en := message_en, image_url := image_url,
      logo_image_url := logo_image_url, time_created := time_created,
      count := count, is_read := is_read,
      community := PartialCommunity.mk communityData, author := author }

/-- The right-hand operand of `==`: either another `Notification` or a value
of any other type. -/
inductive EqOperand where
  | notif (n : Notification)
  | nonNotif
  deriving Repr

/-- From `Notification.__eq__`: `id` comparison for two notifications, and a
raised `NotImplementedError` against any other type. -/
def notifEq (a : Notification) (other : EqOperand) : Except PyError Bool :=
  match other with
  | EqOperand.notif b => Except.ok (a.id == b.id)
  | EqOperand.nonNotif => Except.error PyError.notImplementedError

/-- Python's `hash` on an `int`: reduction modulo the Mersenne prime
`2^61 - 1` (sign-preserving), with `-1` mapped to `-2`. -/
def pyHashInt (i : Int) : Int :=
  let m : Int := 2 ^ 61 - 1
  let h := if 0 ≤ i then i % m else -((-i) % m)
  if h = -1 then -2 else h

/-- From `Notification.__hash__`: `hash(self.id)`. -/
def notifHash (n : Notification) : Int := pyHashInt n.id

/-- From `Notification.__str__`: the English message body. -/
def notifStr (n : Notification) : String := n.message_en

/-- From `Notification.url`: prefix the fixed origin onto `data["webUrl"]`. -/
def url (n : Notification) : Except PyError String := do
  let webUrl ← getItem "webUrl" n.data.webUrl
  Except.ok ("https://weverse.io" ++ webUrl)

/-- The maximal run of digits at the head of the list (`\d+` greedy). -/
def takeDigits : List Char → List Char
  | [] => []
  | c :: cs => if c.isDigit then c :: takeDigits cs else []

/-- One attempt of the pattern `[\d]-\d+` anchored at the head of the list:
a single digit, a hyphen, then a greedy non-empty digit run. -/
def matchDashAt (l : List Char) : Option (List Char) :=
  match l with
  | c :: d :: e :: rest =>
    if c.isDigit && (d == '-') && e.isDigit then
      some (c :: '-' :: takeDigits (e :: rest))
    else none
  | _ => none

/-- The search `re.search(r"([\d]-\d+)", s)`: try the pattern at each position left to
right and return the first (leftmost) match. -/
def searchDash : List Char → Option (List Char)
  | [] => none
  | c :: cs =>
    match matchDashAt (c :: cs) with
    | some m => some m
    | none => searchDash cs

/-- The search `re.search(r"\d+", s)`: the leftmost maximal run of digits. -/
def searchDigits : List Char → Option (List Char)
  | [] => none
  | c :: cs => if c.isDigit then some (c :: takeDigits cs) else searchDigits cs

/-- From `Notification.post_id`: search `data["messageId"]` for the first
`[\d]-\d+` fragment, fall back to the first `\d+` run, and call `.group(0)`
on the result — an `AttributeError` when both searches returned `None`. -/
def post_id (n : Notification) : Except PyError String := do
  let messageId ← getItem "messageId" n.data.messageId
  match searchDash messageId.toList with
  | some m => Except.ok (String.mk m)
  | none =>
    match searchDigits messageId.toList with
    | some m => Except.ok (String.mk m)
    | none => Except.error PyError.attributeError

/-- Modelled from the spec: the enumerated taxonomy `NotificationType`
(`weverse/enums.py`, not part of THE CORE) — the ten content categories the
classifier can emit. -/
inductive NotificationType where
  | user_post_comment
  | media_comment
  | moment_comment
  | artist_post_comment
  | post
  | moment
  | live
  | media
  | notice
  | birthday
  deriving DecidableEq, Repr

/-- The value returned by `post_type`: a taxonomy category, or the literal
string sentinel `"NOT IMPLEMENTED"` when no marker matches. -/
inductive PostTypeResult where
  | category (t : NotificationType)
  | notImplemented
  deriving DecidableEq, Repr

/-- The `post_types` marker table, in the exact declaration order of the
source's `dict` literal (Python dicts preserve insertion order). -/
def postTypes : List (String × NotificationType) :=
  [("T_FEED_COMMENT", NotificationType.user_post_comment),
   ("ST_FEED_COMMENT", NotificationType.user_post_comment),
   ("_MEDIA_COMMENT", NotificationType.media_comment),
   ("_MOMENT_COMMENT", NotificationType.moment_comment),
   ("MOMENT_COMMENT", NotificationType.moment_comment),
   ("ARTIST_COMMENT", NotificationType.artist_post_comment),
   ("ARTIST_POST", NotificationType.post),
   ("ARTIST_MOMENT", NotificationType.moment),
   ("ARTIST_LIVE_ON_AIR", NotificationType.live),
   ("COMMUNITY_MEDIA", NotificationType.media),
   ("NOTICE", NotificationType.notice),
   ("COMMUNITY_ANNIVERSARY", NotificationType.birthday)]

/-- Python's `needle in hay` substring test, on character lists. -/
def isSubstr (needle hay : List Char) : Bool :=
  match hay with
  | [] => needle.isEmpty
  | _ :: t => needle.isPrefixOf hay || isSubstr needle t

/-- The `for key, value in post_types.items()` loop: return the category of
the first marker occurring in `messageId`, else the sentinel. -/
def firstMarker (table : List (String × NotificationType)) (messageId : String) :
    PostTypeResult :=
  match table with
  | [] => PostTypeResult.notImplemented
  | (key, value) :: rest =>
    if isSubstr key.toList messageId.toList then PostTypeResult.category value
    else firstMarker rest messageId

/-- From `Notification.post_type`: ordered substring classification of
`data["messageId"]` against the marker table. -/
def post_type (n : Notification) : Except PyError PostTypeResult := do
  let messageId ← getItem "messageId" n.data.messageId
  Except.ok (firstMarker postTypes messageId)

/-! ## Spec-side characterizations

These definitions follow the specification's words rather than the source,
for refinement comparisons: the first `<digits>-<digits>` fragment, the
position-indexed view of the single-digit pattern, and the first-match view
of the marker table. -/

/-- Spec-side: does the single-digit pattern `[\d]-\d+` match at the head? -/
def dashPos0 (l : List Char) : Bool :=
  match l with
  | c :: d :: e :: _ => c.isDigit && (d == '-') && e.isDigit
  | _ => false

/-- Spec-side: the fragment the single-digit pattern yields at the head. -/
def dashFrag0 (l : List Char) : List Char :=
  match l with
  | c :: _ :: rest => c :: '-' :: takeDigits rest
  | _ => []

/-- Spec-side: the single-digit pattern matches at position `i`. -/
def dashPosAt (l : List Char) (i : Nat) : Bool := dashPos0 (l.drop i)

/-- Spec-side: the fragment the single-digit pattern yields at position `i`. -/
def dashFragAt (l : List Char) (i : Nat) : List Char := dashFrag0 (l.drop i)

/-- Spec-side: a `<digits>-<digits>` match (`\d+-\d+`, greedy) anchored at
the head: a non-empty digit run, a hyphen, a non-empty digit run. -/
def multiDash0 (l : List Char) : Option (List Char) :=
  let ds := takeDigits l
  if ds.isEmpty then none
  else
    match l.drop ds.length with
    | d :: rest =>
      if d == '-' then
        let es := takeDigits rest
        if es.isEmpty then none else some (ds ++ '-' :: es)
      else none
    | [] => none

/-- Spec-side: the first (leftmost) `<digits>-<digits>` fragment of the
string, the fragment the spec says `post_id` returns verbatim. -/
def specSearchMultiDash : List Char → Option (List Char)
  | [] => none
  | c :: cs =>
    match multiDash0 (c :: cs) with
    | some m => some m
    | none => specSearchMultiDash cs

/-- Spec-side: a digit sits at position `i`. -/
def digitPosAt (l : List Char) (i : Nat) : Bool :=
  match l.drop i with
  | c :: _ => c.isDigit
  | [] => false

/-- Spec-side: the maximal digit run starting at position `i`. -/
def digitRunAt (l : List Char) (i : Nat) : List Char := takeDigits (l.drop i)

/-- Spec-side: the category of the first marker of the table occurring in
`messageId`, phrased with `List.find?`. -/
def specFirstCategory (table : List (String × NotificationType))
    (messageId : String) : PostTypeResult :=
  match table.find? (fun p => isSubstr p.1.toList messageId.toList) with
  | some p => PostTypeResult.category p.2
  | none => PostTypeResult.notImplemented

/-! ## Concrete payloads for examples and witnesses -/

/-- A payload carrying every construction-required key, with a given
`messageId`. -/
def samplePayload (mid : String) : Payload :=
  { activityId := some 7, title := some "Group",
    message := some { values := some { ko := some "k", ja := some "j", en := some "e" } },
    imageUrl := none, logoImageUrl := some "logo.png",
    time := some 0, count := some 0, read := some false,
    community := some { raw := [] }, authors := none,
    webUrl := some "/p", messageId := some mid }

/-- The notification `construct (samplePayload mid)` produces. -/
def mkNotif (mid : String) : Notification :=
  { data := samplePayload mid, id := 7, title := "Group",
    message_ko := "k", message_ja := "j", message_en := "e",
    image_url := none, logo_image_url := "logo.png",
    time_created := 0, count := 0, is_read := false,
    community := { data := { raw := [] } }, author := none }

/-- A payload carrying every construction-required key but neither `webUrl`
nor `messageId`. -/
def payloadNoUrl : Payload :=
  { samplePayload "m" with webUrl := none, messageId := none }

/-- A payload whose `message.values` sub-mapping carries no locale key. -/
def payloadNoLocales : Payload :=
  { samplePayload "m" with
    message := some { values := some { ko := none, ja := none, en := none } } }

/-! ## Helper lemmas about the regex searches -/

lemma matchDashAt_eq (l : List Char) :
    matchDashAt l = if dashPos0 l then some (dashFrag0 l) else none := by
  match l with
  | [] => rfl
  | [_] => rfl
  | [_, _] => rfl
  | c :: d :: e :: rest => rfl

lemma dashPosAt_zero (l : List Char) : dashPosAt l 0 = dashPos0 l := rfl

lemma dashPosAt_succ (c : Char) (cs : List Char) (i : Nat) :
    dashPosAt (c :: cs) (i + 1) = dashPosAt cs i := by
  simp [dashPosAt]

lemma dashFragAt_zero (l : List Char) : dashFragAt l 0 = dashFrag0 l := rfl

lemma dashFragAt_succ (c : Char) (cs : List Char) (i : Nat) :
    dashFragAt (c :: cs) (i + 1) = dashFragAt cs i := by
  simp [dashFragAt]

/-- The search `re.search(r"([\d]-\d+)", s)` returns the fragment at the least position
where the single-digit pattern matches. -/
lemma searchDash_least (l : List Char) :
    ∀ i : Nat, dashPosAt l i = true → (∀ j, j < i → dashPosAt l j = false) →
    searchDash l = some (dashFragAt l i) := by
  induction l with
  | nil =>
    intro i h _
    simp [dashPosAt, dashPos0] at h
  | cons c cs ih =>
    intro i hpos hmin
    unfold searchDash
    rw [matchDashAt_eq]
    cases i with
    | zero =>
      rw [dashPosAt_zero] at hpos
      rw [hpos, dashFragAt_zero]
      simp
    | succ j =>
      have h0 : dashPos0 (c :: cs) = false := by
        have h := hmin 0 (Nat.succ_pos j)
        rwa [dashPosAt_zero] at h
      rw [h0]
      simp only [Bool.false_eq_true, if_false]
      rw [dashFragAt_succ]
      apply ih j
      · rwa [dashPosAt_succ] at hpos
      · intro k hk
        have h := hmin (k + 1) (Nat.succ_lt_succ hk)
        rwa [dashPosAt_succ] at h

lemma digitPosAt_zero (c : Char) (cs : List Char) :
    digitPosAt (c :: cs) 0 = c.isDigit := rfl

lemma digitPosAt_succ (c : Char) (cs : List Char) (i : Nat) :
    digitPosAt (c :: cs) (i + 1) = digitPosAt cs i := by
  simp [digitPosAt]

lemma digitRunAt_succ (c : Char) (cs : List Char) (i : Nat) :
    digitRunAt (c :: cs) (i + 1) = digitRunAt cs i := by
  simp [digitRunAt]

/-- The search `re.search(r"\d+", s)` returns the digit run at the least position
holding a digit. -/
lemma searchDigits_least (l : List Char) :
    ∀ i : Nat, digitPosAt l i = true → (∀ j, j < i → digitPosAt l j = false) →
    searchDigits l = some (digitRunAt l i) := by
  induction l with
  | nil =>
    intro i h _
    simp [digitPosAt] at h
  | cons c cs ih =>
    intro i hpos hmin
    cases i with
    | zero =>
      rw [digitPosAt_zero] at hpos
      simp [searchDigits, hpos, digitRunAt, takeDigits]
    | succ j =>
      have h0 : c.isDigit = false := by
        have h := hmin 0 (Nat.succ_pos j)
        rwa [digitPosAt_zero] at h
      rw [digitRunAt_succ]
      simp only [searchDigits, h0, Bool.false_eq_true, if_false]
      apply ih j
      · rwa [digitPosAt_succ] at hpos
      · intro k hk
        have h := hmin (k + 1) (Nat.succ_lt_succ hk)
        rwa [digitPosAt_succ] at h

lemma searchDigits_none (l : List Char) (h : ∀ c ∈ l, c.isDigit = false) :
    searchDigits l = none := by
  induction l with
  | nil => rfl
  | cons c cs ih =>
    have hc : c.isDigit = false := h c (List.mem_cons_self c cs)
    simp only [searchDigits, hc, Bool.false_eq_true, if_false]
    exact ih (fun x hx => h x (List.mem_cons_of_mem c hx))

lemma matchDashAt_none (c : Char) (cs : List Char) (hc : c.isDigit = false) :
    matchDashAt (c :: cs) = none := by
  match cs with
  | [] => rfl
  | [_] => rfl
  | d :: e :: rest => simp [matchDashAt, hc]

lemma searchDash_none_of_nodigit (l : List Char)
    (h : ∀ c ∈ l, c.isDigit = false) : searchDash l = none := by
  induction l with
  | nil => rfl
  | cons c cs ih =>
    have hc : c.isDigit = false := h c (List.mem_cons_self c cs)
    unfold searchDash
    rw [matchDashAt_none c cs hc]
    exact ih (fun x hx => h x (List.mem_cons_of_mem c hx))

/-- An anchored match of `[\d]-\d+` forces an anchored match of
`\d+-\d+`. -/
lemma multiDash0_ne_none (l m : List Char) (h : matchDashAt l = some m) :
    multiDash0 l ≠ none := by
  match l with
  | [] => simp [matchDashAt] at h
  | [_] => simp [matchDashAt] at h
  | [_, _] => simp [matchDashAt] at h
  | c :: d :: e :: rest =>
    simp only [matchDashAt] at h
    by_cases hcond : (c.isDigit && (d == '-') && e.isDigit) = true
    · simp only [Bool.and_eq_true] at hcond
      obtain ⟨⟨hc, hd⟩, he⟩ := hcond
      have hd' : d = '-' := by exact eq_of_beq hd
      subst hd'
      have hdash : ('-').isDigit = false := rfl
      simp [multiDash0, takeDigits, hc, he, hdash]
    · rw [if_neg hcond] at h
      simp at h

/-- A string with no `<digits>-<digits>` fragment has no `[\d]-\d+`
fragment either. -/
lemma searchDash_none_of_multi_none (l : List Char)
    (h : specSearchMultiDash l = none) : searchDash l = none := by
  induction l with
  | nil => rfl
  | cons c cs ih =>
    unfold specSearchMultiDash at h
    cases hm : multiDash0 (c :: cs) with
    | some m => rw [hm] at h; simp at h
    | none =>
      rw [hm] at h
      unfold searchDash
      cases hd : matchDashAt (c :: cs) with
      | some m => exact absurd hm (multiDash0_ne_none _ m hd)
      | none => exact ih h

/-! ## Helper lemmas about classification and construction -/

lemma firstMarker_eq_spec (table : List (String × NotificationType))
    (mid : String) : firstMarker table mid = specFirstCategory table mid := by
  induction table with
  | nil => rfl
  | cons q rest ih =>
    obtain ⟨k, v⟩ := q
    cases hq : isSubstr k.toList mid.toList with
    | true =>
      have hq' : isSubstr k.data mid.data = true := hq
      simp [firstMarker, specFirstCategory, List.find?_cons, hq, hq']
    | false =>
      have hq' : isSubstr k.data mid.data = false := hq
      simp only [firstMarker, specFirstCategory, List.find?_cons, hq, hq',
        Bool.false_eq_true, if_false] at *
      simpa using ih

lemma firstMarker_none (table : List (String × NotificationType)) (mid : String)
    (h : ∀ q ∈ table, isSubstr q.1.toList mid.toList = false) :
    firstMarker table mid = PostTypeResult.notImplemented := by
  induction table with
  | nil => rfl
  | cons q rest ih =>
    obtain ⟨k, v⟩ := q
    have hq : isSubstr k.toList mid.toList = false := h (k, v) (List.mem_cons_self _ _)
    simp only [firstMarker, hq, Bool.false_eq_true, if_false]
    exact ih (fun x hx => h x (List.mem_cons_of_mem _ hx))

lemma firstMarker_cons_false (k : String) (v : NotificationType)
    (rest : List (String × NotificationType)) (mid : String)
    (h : isSubstr k.toList mid.toList = false) :
    firstMarker ((k, v) :: rest) mid = firstMarker rest mid := by
  simp only [firstMarker, h, Bool.false_eq_true, if_false]

lemma firstMarker_cons_true (k : String) (v : NotificationType)
    (rest : List (String × NotificationType)) (mid : String)
    (h : isSubstr k.toList mid.toList = true) :
    firstMarker ((k, v) :: rest) mid = PostTypeResult.category v := by
  simp only [firstMarker, h, if_true]

/-- Inversion of the constructor: with every required key present,
construction succeeds and each field holds the documented value. -/
lemma construct_ok (p : Payload) (aid : Int) (ti : String) (lv : LocaleValues)
    (lo : String) (tm ct : Int) (rd : Bool) (cm : SubMapping)
    (h1 : p.activityId = some aid) (h2 : p.title = some ti)
    (h3 : p.message = some { values := some lv })
    (h4 : p.logoImageUrl = some lo) (h5 : p.time = some tm)
    (h6 : p.count = some ct) (h7 : p.read = some rd)
    (h8 : p.community = some cm) :
    construct p = Except.ok
      { data := p, id := aid, title := ti,
        message_ko := lv.ko.getD "", message_ja := lv.ja.getD "",
        message_en := lv.en.getD "", image_url := p.imageUrl,
        logo_image_url := lo, time_created := tm, count := ct, is_read := rd,
        community := { data := cm },
        author := match p.authors with
                  | some (a :: _) => some { data := a }
                  | _ => none } := by
  simp only [construct, getItem, h1, h2, h3, h4, h5, h6, h7, h8]
  rfl

lemma post_id_on_messageId (n : Notification) (mid : String)
    (hmid : n.data.messageId = some mid) :
    post_id n =
      (match searchDash mid.toList with
       | some m => Except.ok (String.mk m)
       | none =>
         match searchDigits mid.toList with
         | some m => Except.ok (String.mk m)
         | none => Except.error PyError.attributeError) := by
  unfold post_id
  rw [hmid]
  rfl

lemma post_type_on_messageId (n : Notification) (mid : String)
    (hmid : n.data.messageId = some mid) :
    post_type n = Except.ok (firstMarker postTypes mid) := by
  unfold post_type
  rw [hmid]
  rfl

lemma url_keyError (n : Notification) (h : n.data.webUrl = none) :
    url n = Except.error (PyError.keyError "webUrl") := by
  unfold url
  rw [h]
  rfl

lemma post_id_keyError (n : Notification) (h : n.data.messageId = none) :
    post_id n = Except.error (PyError.keyError "messageId") := by
  unfold post_id
  rw [h]
  rfl

lemma post_type_keyError (n : Notification) (h : n.data.messageId = none) :
    post_type n = Except.error (PyError.keyError "messageId") := by
  unfold post_type
  rw [h]
  rfl

/-! ## Claim theorems -/

/-- C1, counterexample: the payload whose `messageId` is `"12-3"` contains
the `<digits>-<digits>` fragment `"12-3"` as its first (and only maximal)
such fragment, yet `post_id` returns `"2-3"`, not that fragment verbatim:
the compiled pattern `([\d]-\d+)` admits only a single digit before the
hyphen. -/
theorem C1_counterexample :
    specSearchMultiDash (String.toList "12-3") = some (String.toList "12-3") ∧
    (construct (samplePayload "12-3")).bind post_id = Except.ok "2-3" ∧
    ("2-3" : String) ≠ "12-3" :=
  ⟨rfl, rfl, by decide⟩

/-- C1, amended: for every payload whose `messageId` contains a fragment of
the form single digit, hyphen, digit — at least position `i`, no earlier
position matching — `post_id` returns that leftmost fragment with the digit
run after the hyphen taken maximally; in particular `post_id` returns
`"3-12345"` when `messageId` is `"c2p-T_FEED_COMMENT-3-12345"`. -/
theorem C1_post_id_first_single_digit_dash_fragment :
    (∀ (n : Notification) (mid : String) (i : Nat),
      n.data.messageId = some mid →
      dashPosAt mid.toList i = true →
      (∀ j, j < i → dashPosAt mid.toList j = false) →
      post_id n = Except.ok (String.mk (dashFragAt mid.toList i))) ∧
    post_id (mkNotif "c2p-T_FEED_COMMENT-3-12345") = Except.ok "3-12345" := by
  constructor
  · intro n mid i hmid hpos hmin
    rw [post_id_on_messageId n mid hmid]
    rw [searchDash_least mid.toList i hpos hmin]
  · rfl

/-- C1, witness: the amended theorem applied at `messageId = "a1-23b"`,
whose leftmost single-digit dash fragment sits at position 1. -/
theorem C1_witness :
    post_id (mkNotif "a1-23b") = Except.ok "1-23" := by
  have h := C1_post_id_first_single_digit_dash_fragment.1 (mkNotif "a1-23b")
    "a1-23b" 1 rfl (by decide) (by decide)
  have hfrag : String.mk (dashFragAt (String.toList "a1-23b") 1) = "1-23" := rfl
  rw [hfrag] at h
  exact h

/-- C2: `post_type` returns the category of the first marker of the
declaration-ordered table occurring as a substring of `messageId` (stated
as agreement with the `List.find?` characterization); a `messageId`
containing `"NOTICE"` and no earlier marker yields the notice category, and
one containing `"ARTIST_LIVE_ON_AIR"` and no earlier marker yields the live
category. -/
theorem C2_post_type_ordered_marker_table :
    (∀ (n : Notification) (mid : String), n.data.messageId = some mid →
      post_type n = Except.ok (specFirstCategory postTypes mid)) ∧
    (∀ (n : Notification) (mid : String), n.data.messageId = some mid →
      isSubstr "T_FEED_COMMENT".toList mid.toList = false →
      isSubstr "ST_FEED_COMMENT".toList mid.toList = false →
      isSubstr "_MEDIA_COMMENT".toList mid.toList = false →
      isSubstr "_MOMENT_COMMENT".toList mid.toList = false →
      isSubstr "MOMENT_COMMENT".toList mid.toList = false →
      isSubstr "ARTIST_COMMENT".toList mid.toList = false →
      isSubstr "ARTIST_POST".toList mid.toList = false →
      isSubstr "ARTIST_MOMENT".toList mid.toList = false →
      isSubstr "ARTIST_LIVE_ON_AIR".toList mid.toList = false →
      isSubstr "COMMUNITY_MEDIA".toList mid.toList = false →
      isSubstr "NOTICE".toList mid.toList = true →
      post_type n = Except.ok (PostTypeResult.category NotificationType.notice)) ∧
    (∀ (n : Notification) (mid : String), n.data.messageId = some mid →
      isSubstr "T_FEED_COMMENT".toList mid.toList = false →
      isSubstr "ST_FEED_COMMENT".toList mid.toList = false →
      isSubstr "_MEDIA_COMMENT".toList mid.toList = false →
      isSubstr "_MOMENT_COMMENT".toList mid.toList = false →
      isSubstr "MOMENT_COMMENT".toList mid.toList = false →
      isSubstr "ARTIST_COMMENT".toList mid.toList = false →
      isSubstr "ARTIST_POST".toList mid.toList = false →
      isSubstr "ARTIST_MOMENT".toList mid.toList = false →
      isSubstr "ARTIST_LIVE_ON_AIR".toList mid.toList = true →
      post_type n = Except.ok (PostTypeResult.category NotificationType.live)) := by
  refine ⟨?_, ?_, ?_⟩
  · intro n mid hmid
    rw [post_type_on_messageId n mid hmid, firstMarker_eq_spec]
  · intro n mid hmid h1 h2 h3 h4 h5 h6 h7 h8 h9 h10 h11
    rw [post_type_on_messageId n mid hmid]
    unfold postTypes
    rw [firstMarker_cons_false _ _ _ _ h1, firstMarker_cons_false _ _ _ _ h2,
      firstMarker_cons_false _ _ _ _ h3, firstMarker_cons_false _ _ _ _ h4,
      firstMarker_cons_false _ _ _ _ h5, firstMarker_cons_false _ _ _ _ h6,
      firstMarker_cons_false _ _ _ _ h7, firstMarker_cons_false _ _ _ _ h8,
      firstMarker_cons_false _ _ _ _ h9, firstMarker_cons_false _ _ _ _ h10,
      firstMarker_cons_true _ _ _ _ h11]
  · intro n mid hmid h1 h2 h3 h4 h5 h6 h7 h8 h9
    rw [post_type_on_messageId n mid hmid]
    unfold postTypes
    rw [firstMarker_cons_false _ _ _ _ h1, firstMarker_cons_false _ _ _ _ h2,
      firstMarker_cons_false _ _ _ _ h3, firstMarker_cons_false _ _ _ _ h4,
      firstMarker_cons_false _ _ _ _ h5, firstMarker_cons_false _ _ _ _ h6,
      firstMarker_cons_false _ _ _ _ h7, firstMarker_cons_false _ _ _ _ h8,
      firstMarker_cons_true _ _ _ _ h9]

/-- C2, witness: the marker-table theorem applied at the two concrete
message ids named by the claim. -/
theorem C2_witness :
    post_type (mkNotif "c2p-NOTICE-1") =
      Except.ok (PostTypeResult.category NotificationType.notice) ∧
    post_type (mkNotif "c2p-ARTIST_LIVE_ON_AIR-1") =
      Except.ok (PostTypeResult.category NotificationType.live) := by
  constructor
  · exact C2_post_type_ordered_marker_table.2.1 (mkNotif "c2p-NOTICE-1")
      "c2p-NOTICE-1" rfl (by decide) (by decide) (by decide) (by decide)
      (by decide) (by decide) (by decide) (by decide) (by decide) (by decide)
      (by decide)
  · exact C2_post_type_ordered_marker_table.2.2 (mkNotif "c2p-ARTIST_LIVE_ON_AIR-1")
      "c2p-ARTIST_LIVE_ON_AIR-1" rfl (by decide) (by decide) (by decide)
      (by decide) (by decide) (by decide) (by decide) (by decide) (by decide)

/-- C3: when `messageId` contains neither a `<digits>-<digits>` fragment nor
any digit, `post_id` fails with a raised error (the `AttributeError` from
`.group(0)` on `None`, the code's realization of the spec's
PatternNotFoundError) and never returns a synthetic or empty value. -/
theorem C3_post_id_raises_when_no_digits :
    ∀ (n : Notification) (mid : String),
      n.data.messageId = some mid →
      specSearchMultiDash mid.toList = none →
      (∀ c ∈ mid.toList, c.isDigit = false) →
      post_id n = Except.error PyError.attributeError := by
  intro n mid hmid _ hnod
  rw [post_id_on_messageId n mid hmid]
  rw [searchDash_none_of_nodigit mid.toList hnod]
  rw [searchDigits_none mid.toList hnod]

/-- C3, witness: the no-digit theorem applied at `messageId = "abc-def"`. -/
theorem C3_witness :
    post_id (mkNotif "abc-def") = Except.error PyError.attributeError :=
  C3_post_id_raises_when_no_digits (mkNotif "abc-def") "abc-def" rfl
    (by decide) (by decide)

/-- C4: when `messageId` contains no `<digits>-<digits>` fragment but holds
a digit — first one at position `i` — `post_id` returns the maximal digit
run starting there; in particular `post_id` returns `"98765"` when
`messageId` is `"NOTICE-98765"`. -/
theorem C4_post_id_digit_run_fallback :
    (∀ (n : Notification) (mid : String) (i : Nat),
      n.data.messageId = some mid →
      specSearchMultiDash mid.toList = none →
      digitPosAt mid.toList i = true →
      (∀ j, j < i → digitPosAt mid.toList j = false) →
      post_id n = Except.ok (String.mk (digitRunAt mid.toList i))) ∧
    post_id (mkNotif "NOTICE-98765") = Except.ok "98765" := by
  constructor
  · intro n mid i hmid hmulti hpos hmin
    rw [post_id_on_messageId n mid hmid]
    rw [searchDash_none_of_multi_none mid.toList hmulti]
    rw [searchDigits_least mid.toList i hpos hmin]
  · rfl

/-- C4, witness: the fallback theorem applied at `messageId = "NOTICE-42"`,
whose first digit sits at position 7. -/
theorem C4_witness :
    post_id (mkNotif "NOTICE-42") = Except.ok "42" := by
  have h := C4_post_id_digit_run_fallback.1 (mkNotif "NOTICE-42")
    "NOTICE-42" 7 rfl (by decide) (by decide) (by decide)
  have hfrag : String.mk (digitRunAt (String.toList "NOTICE-42") 7) = "42" := rfl
  rw [hfrag] at h
  exact h

/-- C5: when `messageId` contains none of the known markers, `post_type`
returns the `"NOT IMPLEMENTED"` sentinel and raises no error; in particular
so for `messageId = "UNKNOWN_TYPE-1"`. -/
theorem C5_post_type_unclassified_sentinel :
    (∀ (n : Notification) (mid : String),
      n.data.messageId = some mid →
      (∀ q ∈ postTypes, isSubstr q.1.toList mid.toList = false) →
      post_type n = Except.ok PostTypeResult.notImplemented) ∧
    post_type (mkNotif "UNKNOWN_TYPE-1") = Except.ok PostTypeResult.notImplemented := by
  constructor
  · intro n mid hmid h
    rw [post_type_on_messageId n mid hmid]
    rw [firstMarker_none postTypes mid h]
  · rfl

/-- C5, witness: the sentinel theorem applied at `messageId = "XYZ"`. -/
theorem C5_witness :
    post_type (mkNotif "XYZ") = Except.ok PostTypeResult.notImplemented :=
  C5_post_type_unclassified_sentinel.1 (mkNotif "XYZ") "XYZ" rfl (by decide)

/-- C6: equality between two `Notification`s is exactly `id` equality, and
comparing against a non-`Notification` raises `NotImplementedError` (the
spec's UnsupportedComparisonError) instead of returning false. -/
theorem C6_eq_by_id_and_raises_on_foreign :
    (∀ a b : Notification, notifEq a (EqOperand.notif b) = Except.ok (a.id == b.id)) ∧
    (∀ a b : Notification, notifEq a (EqOperand.notif b) = Except.ok true ↔ a.id = b.id) ∧
    (∀ a : Notification,
      notifEq a EqOperand.nonNotif = Except.error PyError.notImplementedError) := by
  refine ⟨fun a b => rfl, fun a b => ?_, fun a => rfl⟩
  constructor
  · intro h
    simp only [notifEq, Except.ok.injEq] at h
    exact eq_of_beq h
  · intro h
    simp [notifEq, h]

/-- C6, witness: the equality theorem applied at a concrete notification. -/
theorem C6_witness :
    notifEq (mkNotif "x") (EqOperand.notif (mkNotif "x")) = Except.ok true ∧
    notifEq (mkNotif "x") EqOperand.nonNotif =
      Except.error PyError.notImplementedError :=
  ⟨(C6_eq_by_id_and_raises_on_foreign.2.1 (mkNotif "x") (mkNotif "x")).mpr rfl,
   C6_eq_by_id_and_raises_on_foreign.2.2 (mkNotif "x")⟩

/-- C7: on any payload with every required key, `construct` succeeds with
`id` equal to the payload's `activityId`; the hash is a function of `id`
alone; and equality restricted to notifications is reflexive, symmetric and
transitive. -/
theorem C7_id_hash_equality_consistency :
    (∀ (p : Payload) (aid : Int) (ti : String) (lv : LocaleValues) (lo : String)
       (tm ct : Int) (rd : Bool) (cm : SubMapping),
      p.activityId = some aid → p.title = some ti →
      p.message = some { values := some lv } → p.logoImageUrl = some lo →
      p.time = some tm → p.count = some ct → p.read = some rd →
      p.community = some cm →
      ∃ n : Notification, construct p = Except.ok n ∧ n.id = aid) ∧
    (∀ a b : Notification, a.id = b.id → notifHash a = notifHash b) ∧
    (∀ a : Notification, notifEq a (EqOperand.notif a) = Except.ok true) ∧
    (∀ a b : Notification, notifEq a (EqOperand.notif b) = Except.ok true →
      notifEq b (EqOperand.notif a) = Except.ok true) ∧
    (∀ a b c : Notification, notifEq a (EqOperand.notif b) = Except.ok true →
      notifEq b (EqOperand.notif c) = Except.ok true →
      notifEq a (EqOperand.notif c) = Except.ok true) := by
  refine ⟨?_, ?_, ?_, ?_, ?_⟩
  · intro p aid ti lv lo tm ct rd cm h1 h2 h3 h4 h5 h6 h7 h8
    exact ⟨_, construct_ok p aid ti lv lo tm ct rd cm h1 h2 h3 h4 h5 h6 h7 h8, rfl⟩
  · intro a b h
    unfold notifHash
    rw [h]
  · intro a
    simp [notifEq]
  · intro a b h
    simp only [notifEq, Except.ok.injEq] at *
    exact beq_iff_eq.mpr (beq_iff_eq.mp h).symm
  · intro a b c hab hbc
    simp only [notifEq, Except.ok.injEq] at *
    exact beq_iff_eq.mpr ((beq_iff_eq.mp hab).trans (beq_iff_eq.mp hbc))

/-- C7, witness: the consistency theorem applied at a concrete payload. -/
theorem C7_witness :
    (∃ n : Notification, construct (samplePayload "m") = Except.ok n ∧ n.id = 7) ∧
    notifEq (mkNotif "m") (EqOperand.notif (mkNotif "m")) = Except.ok true :=
  ⟨C7_id_hash_equality_consistency.1 (samplePayload "m") 7 "Group"
     { ko := some "k", ja := some "j", en := some "e" } "logo.png" 0 0 false
     { raw := [] } rfl rfl rfl rfl rfl rfl rfl rfl,
   C7_id_hash_equality_consistency.2.2.1 (mkNotif "m")⟩

/-- C8: on any payload with every required key, the constructed
notification's `author` is present iff the payload's `authors` list exists
and is non-empty; it wraps the first element when present and is `none` for
a missing or empty list. -/
theorem C8_author_present_iff_authors_nonempty :
    ∀ (p : Payload) (aid : Int) (ti : String) (lv : LocaleValues) (lo : String)
      (tm ct : Int) (rd : Bool) (cm : SubMapping),
      p.activityId = some aid → p.title = some ti →
      p.message = some { values := some lv } → p.logoImageUrl = some lo →
      p.time = some tm → p.count = some ct → p.read = some rd →
      p.community = some cm →
      ∃ n : Notification, construct p = Except.ok n ∧
        (n.author.isSome = true ↔ ∃ a l, p.authors = some (a :: l)) ∧
        (∀ a l, p.authors = some (a :: l) → n.author = some { data := a }) ∧
        ((p.authors = none ∨ p.authors = some []) → n.author = none) := by
  intro p aid ti lv lo tm ct rd cm h1 h2 h3 h4 h5 h6 h7 h8
  refine ⟨_, construct_ok p aid ti lv lo tm ct rd cm h1 h2 h3 h4 h5 h6 h7 h8,
    ?_, ?_, ?_⟩
  · cases hau : p.authors with
    | none => simp [hau]
    | some l =>
      cases l with
      | nil => simp [hau]
      | cons a tl => simp [hau]
  · intro a l hau
    rw [hau]
  · intro hau
    cases hau with
    | inl h => rw [h]
    | inr h => rw [h]

/-- C8, witness: the author theorem applied at a concrete payload with no
`authors` key. -/
theorem C8_witness :
    ∃ n : Notification, construct payloadNoUrl = Except.ok n ∧
      (n.author.isSome = true ↔ ∃ a l, payloadNoUrl.authors = some (a :: l)) ∧
      (∀ a l, payloadNoUrl.authors = some (a :: l) → n.author = some { data := a }) ∧
      ((payloadNoUrl.authors = none ∨ payloadNoUrl.authors = some []) →
        n.author = none) :=
  C8_author_present_iff_authors_nonempty payloadNoUrl 7 "Group"
    { ko := some "k", ja := some "j", en := some "e" } "logo.png" 0 0 false
    { raw := [] } rfl rfl rfl rfl rfl rfl rfl rfl

/-- C9: on any payload with every required key, each locale key missing
under `message.values` normalizes to the empty string in the corresponding
message field; construction succeeds and the field is present. -/
theorem C9_missing_locales_normalize_to_empty :
    ∀ (p : Payload) (aid : Int) (ti : String) (lv : LocaleValues) (lo : String)
      (tm ct : Int) (rd : Bool) (cm : SubMapping),
      p.activityId = some aid → p.title = some ti →
      p.message = some { values := some lv } → p.logoImageUrl = some lo →
      p.time = some tm → p.count = some ct → p.read = some rd →
      p.community = some cm →
      ∃ n : Notification, construct p = Except.ok n ∧
        (lv.ko = none → n.message_ko = "") ∧
        (lv.ja = none → n.message_ja = "") ∧
        (lv.en = none → n.message_en = "") := by
  intro p aid ti lv lo tm ct rd cm h1 h2 h3 h4 h5 h6 h7 h8
  refine ⟨_, construct_ok p aid ti lv lo tm ct rd cm h1 h2 h3 h4 h5 h6 h7 h8,
    ?_, ?_, ?_⟩
  · intro h
    show lv.ko.getD "" = ""
    rw [h]
    rfl
  · intro h
    show lv.ja.getD "" = ""
    rw [h]
    rfl
  · intro h
    show lv.en.getD "" = ""
    rw [h]
    rfl

/-- C9, witness: the locale theorem applied at a payload with all three
locale keys absent. -/
theorem C9_witness :
    ∃ n : Notification, construct payloadNoLocales = Except.ok n ∧
      (({ ko := none, ja := none, en := none } : LocaleValues).ko = none →
        n.message_ko = "") ∧
      (({ ko := none, ja := none, en := none } : LocaleValues).ja = none →
        n.message_ja = "") ∧
      (({ ko := none, ja := none, en := none } : LocaleValues).en = none →
        n.message_en = "") :=
  C9_missing_locales_normalize_to_empty payloadNoLocales 7 "Group"
    { ko := none, ja := none, en := none } "logo.png" 0 0 false
    { raw := [] } rfl rfl rfl rfl rfl rfl rfl rfl

/-- C10: a payload with every construction-required key but neither `webUrl`
nor `messageId` constructs successfully; the missing-key failures surface
only on access to `url` (for `webUrl`) and to `post_id`/`post_type` (for
`messageId`). -/
theorem C10_webUrl_messageId_lazily_required :
    ∀ (p : Payload) (aid : Int) (ti : String) (lv : LocaleValues) (lo : String)
      (tm ct : Int) (rd : Bool) (cm : SubMapping),
      p.activityId = some aid → p.title = some ti →
      p.message = some { values := some lv } → p.logoImageUrl = some lo →
      p.time = some tm → p.count = some ct → p.read = some rd →
      p.community = some cm →
      p.webUrl = none → p.messageId = none →
      ∃ n : Notification, construct p = Except.ok n ∧
        url n = Except.error (PyError.keyError "webUrl") ∧
        post_id n = Except.error (PyError.keyError "messageId") ∧
        post_type n = Except.error (PyError.keyError "messageId") := by
  intro p aid ti lv lo tm ct rd cm h1 h2 h3 h4 h5 h6 h7 h8 hweb hmid
  refine ⟨_, construct_ok p aid ti lv lo tm ct rd cm h1 h2 h3 h4 h5 h6 h7 h8,
    url_keyError _ hweb, post_id_keyError _ hmid, post_type_keyError _ hmid⟩

/-- C10, witness: the laziness theorem applied at the concrete payload
lacking `webUrl` and `messageId`. -/
theorem C10_witness :
    ∃ n : Notification, construct payloadNoUrl = Except.ok n ∧
      url n = Except.error (PyError.keyError "webUrl") ∧
      post_id n = Except.error (PyError.keyError "messageId") ∧
      post_type n = Except.error (PyError.keyError "messageId") :=
  C10_webUrl_messageId_lazily_required payloadNoUrl 7 "Group"
    { ko := some "k", ja := some "j", en := some "e" } "logo.png" 0 0 false
    { raw := [] } rfl rfl rfl rfl rfl rfl rfl rfl rfl rfl

end Weverse
